import Mathlib

/-!
Shallow embedding of `src/server/middleware/turnstile.ts`: a request gate
that checks an `x-turnstile-token` header against a Redis cache and, on a
cache miss, against the Cloudflare Turnstile verification service,
caching a successful verification for ten minutes.

External collaborators (the Redis cache and the Verifier HTTP endpoint)
are modelled as explicit inputs: the cache as an association list of
entries with absolute expiry instants plus per-operation availability
flags, and the Verifier as an oracle mapping the outbound form fields to
the transport outcome of `fetch` + `response.json()`.
-/

namespace Turnstile

/-- JS truthiness of a `string | undefined` value: `undefined` and the
empty string are falsy, every other string is truthy. -/
def truthy : Option String → Bool
  | none => false
  | some s => !(s == "")

/-- JS `||` on `string | undefined` values: the left operand when it is
truthy, otherwise the right operand. -/
def jsOr (a b : Option String) : Option String :=
  if truthy a then a else b

/-- Shape of the `success` field of the JSON object returned by the
Verifier, as seen by `result.success === true`. -/
inductive SuccessField where
  | absent
  | boolTrue
  | boolFalse
  | nonBool
  deriving DecidableEq, Repr

/-- Outcome of one `fetch` to the Verifier followed by
`response.json()`: the fetch itself may reject, the body may fail to
parse as JSON, or a JSON object is obtained (with the HTTP status
carried alongside). -/
inductive FetchOutcome where
  | fetchError
  | jsonError (status : Nat)
  | parsed (status : Nat) (success : SuccessField)
  deriving DecidableEq, Repr

/-- The form-urlencoded fields sent to the Verifier endpoint:
`secret`, `response` (the token) and the optional `remoteip`. -/
structure VerifierRequest where
  secret : String
  response : String
  remoteip : Option String
  deriving DecidableEq, Repr

/-- The Verifier as an oracle from the outbound request to the
transport outcome of the call. -/
def Verifier := VerifierRequest → FetchOutcome

/-- The `URLSearchParams` built by `validateTurnstileToken`: `remoteip`
is appended only when the resolved IP is truthy (`if (remoteip)`). -/
def verifierParams (secretKey : Option String) (token : String)
    (remoteip : Option String) : VerifierRequest :=
  { secret := secretKey.getD ""
    response := token
    remoteip := if truthy remoteip then remoteip else none }

/-- `validateTurnstileToken(token, remoteip?)`: returns `false` without
calling out when the secret key is falsy; otherwise posts the params to
the Verifier and returns `result.success === true`, with any fetch or
JSON-parse failure caught and turned into `false`. The HTTP status of
the response is never consulted. Also returns the list of Verifier
calls made. -/
def validateTurnstileToken (secretKey : Option String) (verifier : Verifier)
    (token : String) (remoteip : Option String) : Bool × List VerifierRequest :=
  if !truthy secretKey then (false, [])
  else
    let vr := verifierParams secretKey token remoteip
    match verifier vr with
    | .fetchError => (false, [vr])
    | .jsonError _ => (false, [vr])
    | .parsed _ s => (s == .boolTrue, [vr])

/-- One Redis entry: key, value and the absolute instant (seconds) at
which it expires. -/
structure CacheEntry where
  key : String
  value : String
  expiresAt : Nat
  deriving DecidableEq, Repr

/-- The Redis keyspace, as an association list (at most one live entry
per key is maintained by `cacheSetEx`). -/
abbrev CacheState := List CacheEntry

/-- Redis `GET key` at instant `now`: the stored value when the entry
exists and has not expired, otherwise `none`. -/
def cacheGet (cache : CacheState) (now : Nat) (key : String) : Option String :=
  match cache.find? (fun e => e.key == key) with
  | some e => if now < e.expiresAt then some e.value else none
  | none => none

/-- Redis `SETEX key ttl value` at instant `now`: replaces any entry for
`key` with one expiring at `now + ttl`. -/
def cacheSetEx (cache : CacheState) (now ttl : Nat) (key value : String) :
    CacheState :=
  ⟨key, value, now + ttl⟩ :: cache.filter (fun e => !(e.key == key))

/-- `TOKEN_CACHE_DURATION = 10 * 60 * 1000` (ten minutes in
milliseconds). -/
def TOKEN_CACHE_DURATION : Nat := 10 * 60 * 1000

/-- Availability of the Redis collaborator for this request: whether the
`GET` and the `SETEX` succeed. A failed `createClient`/`connect` (null
client) makes both false; an individual operation error makes the
corresponding flag false. -/
structure CacheAvail where
  getOk : Bool
  setOk : Bool
  deriving DecidableEq, Repr

/-- `isTokenValid(token)`: `false` when the client is unavailable or the
`GET` throws; otherwise whether `GET "turnstile:" + token` returned the
string `"valid"`. -/
def isTokenValid (avail : CacheAvail) (cache : CacheState) (now : Nat)
    (token : String) : Bool :=
  if !avail.getOk then false
  else cacheGet cache now ("turnstile:" ++ token) == some "valid"

/-- `storeValidToken(token)`: a no-op when the client is unavailable or
the `SETEX` throws; otherwise `SETEX "turnstile:" + token
(TOKEN_CACHE_DURATION / 1000) "valid"`. -/
def storeValidToken (avail : CacheAvail) (cache : CacheState) (now : Nat)
    (token : String) : CacheState :=
  if !avail.setOk then cache
  else cacheSetEx cache now (TOKEN_CACHE_DURATION / 1000)
    ("turnstile:" ++ token) "valid"

/-- Process-wide configuration read from the environment:
`TURNSTILE_SECRET_KEY` and `REDIS_URL`, each possibly unset. -/
structure Config where
  turnstileSecretKey : Option String
  redisUrl : Option String
  deriving DecidableEq, Repr

/-- The parts of the inbound event the handler reads: the
`x-turnstile-token` header, the platform-provided request IP
(`getRequestIP`), and the two IP-bearing headers. -/
structure Request where
  xTurnstileToken : Option String
  requestIP : Option String
  cfConnectingIP : Option String
  xForwardedFor : Option String
  deriving DecidableEq, Repr

/-- Client-visible outcome of the gate: pass-through, or a thrown
`createError` with its status code and the `error`/`message` fields of
its `data` body. -/
inductive Outcome where
  | allow
  | reject (statusCode : Nat) (error message : String)
  deriving DecidableEq, Repr

/-- Result of one run of the gate: the client-visible outcome, the
resulting Redis keyspace, and the Verifier calls made. -/
structure GateResult where
  outcome : Outcome
  cache : CacheState
  verifierCalls : List VerifierRequest
  deriving DecidableEq, Repr

/-- The remote IP resolved in the handler:
`getRequestIP(event) || getHeader(event, 'cf-connecting-ip') ||
getHeader(event, 'x-forwarded-for')`. -/
def resolvedIP (req : Request) : Option String :=
  jsOr (jsOr req.requestIP req.cfConnectingIP) req.xForwardedFor

/-- The `defineEventHandler` body: skip when either configuration value
is falsy; reject 401 when the token header is falsy; allow on a cache
hit; otherwise call the Verifier with the token and resolved IP,
rejecting 401 on failure and caching then allowing on success. -/
def handler (cfg : Config) (verifier : Verifier) (avail : CacheAvail)
    (cache : CacheState) (now : Nat) (req : Request) : GateResult :=
  if !truthy cfg.turnstileSecretKey || !truthy cfg.redisUrl then
    ⟨.allow, cache, []⟩
  else
    let token := req.xTurnstileToken
    if !truthy token then
      ⟨.reject 401 "Authentication required"
        "X-Turnstile-Token header is required", cache, []⟩
    else
      let tok := token.getD ""
      if isTokenValid avail cache now tok then
        ⟨.allow, cache, []⟩
      else
        let remoteip := resolvedIP req
        let r := validateTurnstileToken cfg.turnstileSecretKey verifier tok remoteip
        if !r.1 then
          ⟨.reject 401 "Invalid token"
            "Turnstile token validation failed", cache, r.2⟩
        else
          ⟨.allow, storeValidToken avail cache now tok, r.2⟩

theorem truthy_none : truthy none = false := rfl

theorem truthy_some (s : String) : truthy (some s) = !(s == "") := rfl

theorem ttl_seconds : TOKEN_CACHE_DURATION / 1000 = 600 := rfl

theorem isTokenValid_eq_false (avail : CacheAvail) (cache : CacheState)
    (now : Nat) (token : String)
    (hmiss : cacheGet cache now ("turnstile:" ++ token) ≠ some "valid") :
    isTokenValid avail cache now token = false := by
  unfold isTokenValid
  split
  · rfl
  · simp [hmiss]

theorem validate_of_success (secretKey : Option String) (verifier : Verifier)
    (token : String) (ip : Option String) (st : Nat)
    (hsec : truthy secretKey = true)
    (hok : verifier (verifierParams secretKey token ip) =
      FetchOutcome.parsed st SuccessField.boolTrue) :
    validateTurnstileToken secretKey verifier token ip =
      (true, [verifierParams secretKey token ip]) := by
  simp [validateTurnstileToken, hsec, hok]

theorem validate_of_failure (secretKey : Option String) (verifier : Verifier)
    (token : String) (ip : Option String)
    (hsec : truthy secretKey = true)
    (hfail : ∀ st, verifier (verifierParams secretKey token ip) ≠
      FetchOutcome.parsed st SuccessField.boolTrue) :
    validateTurnstileToken secretKey verifier token ip =
      (false, [verifierParams secretKey token ip]) := by
  unfold validateTurnstileToken
  cases h : verifier (verifierParams secretKey token ip) with
  | fetchError => simp [hsec, h]
  | jsonError st => simp [hsec, h]
  | parsed st s =>
    cases s with
    | boolTrue => exact absurd h (hfail st)
    | absent => simp [hsec, h]
    | boolFalse => simp [hsec, h]
    | nonBool => simp [hsec, h]

theorem cacheGet_setEx_same (cache : CacheState) (now ttl now' : Nat)
    (key value : String) (h : now' < now + ttl) :
    cacheGet (cacheSetEx cache now ttl key value) now' key = some value := by
  simp [cacheGet, cacheSetEx, List.find?, h]

theorem handler_cache_hit (cfg : Config) (verifier : Verifier)
    (avail : CacheAvail) (cache : CacheState) (now : Nat) (req : Request)
    (tok : String)
    (hsec : truthy cfg.turnstileSecretKey = true)
    (hurl : truthy cfg.redisUrl = true)
    (htok : req.xTurnstileToken = some tok) (hne : (tok == "") = false)
    (hget : avail.getOk = true)
    (hhit : cacheGet cache now ("turnstile:" ++ tok) = some "valid") :
    handler cfg verifier avail cache now req = ⟨.allow, cache, []⟩ := by
  simp [handler, hsec, hurl, htok, truthy_some, hne, isTokenValid, hget, hhit]

theorem handler_outcomes (cfg : Config) (verifier : Verifier)
    (avail : CacheAvail) (cache : CacheState) (now : Nat) (req : Request) :
    (handler cfg verifier avail cache now req).outcome = Outcome.allow ∨
    (handler cfg verifier avail cache now req).outcome =
      Outcome.reject 401 "Authentication required"
        "X-Turnstile-Token header is required" ∨
    (handler cfg verifier avail cache now req).outcome =
      Outcome.reject 401 "Invalid token"
        "Turnstile token validation failed" := by
  unfold handler
  dsimp only
  split
  · simp
  split
  · simp
  split
  · simp
  split
  · simp
  · simp

theorem handler_cache_miss_eq (cfg : Config) (verifier : Verifier)
    (avail : CacheAvail) (cache : CacheState) (now : Nat) (req : Request)
    (tok : String)
    (hsec : truthy cfg.turnstileSecretKey = true)
    (hurl : truthy cfg.redisUrl = true)
    (htok : req.xTurnstileToken = some tok) (hne : (tok == "") = false)
    (hvalid : isTokenValid avail cache now tok = false) :
    handler cfg verifier avail cache now req =
      if (validateTurnstileToken cfg.turnstileSecretKey verifier tok
          (resolvedIP req)).1 then
        ⟨.allow, storeValidToken avail cache now tok,
          (validateTurnstileToken cfg.turnstileSecretKey verifier tok
            (resolvedIP req)).2⟩
      else
        ⟨.reject 401 "Invalid token" "Turnstile token validation failed",
          cache,
          (validateTurnstileToken cfg.turnstileSecretKey verifier tok
            (resolvedIP req)).2⟩ := by
  cases h : (validateTurnstileToken cfg.turnstileSecretKey verifier tok
      (resolvedIP req)).1 <;>
    simp [handler, hsec, hurl, htok, truthy_some, hne, hvalid, h]

theorem validate_calls (secretKey : Option String) (verifier : Verifier)
    (token : String) (ip : Option String)
    (hsec : truthy secretKey = true) :
    (validateTurnstileToken secretKey verifier token ip).2 =
      [verifierParams secretKey token ip] := by
  unfold validateTurnstileToken
  cases h : verifier (verifierParams secretKey token ip) <;> simp [hsec, h]

theorem validate_fst_eq_true_iff (secretKey : Option String)
    (verifier : Verifier) (token : String) (ip : Option String)
    (hsec : truthy secretKey = true) :
    (validateTurnstileToken secretKey verifier token ip).1 = true ↔
      ∃ st, verifier (verifierParams secretKey token ip) =
        FetchOutcome.parsed st SuccessField.boolTrue := by
  unfold validateTurnstileToken
  cases h : verifier (verifierParams secretKey token ip) with
  | fetchError => simp [hsec, h]
  | jsonError st => simp [hsec, h]
  | parsed st s => cases s <;> simp [hsec, h]

/-- C4: with configuration present, a request with no `x-turnstile-token`
header is rejected with status 401 and body
`{"error": "Authentication required", "message": "X-Turnstile-Token header
is required"}`, regardless of cache or Verifier state, with the cache
unchanged and no Verifier call. -/
theorem c4_missing_token_rejected (cfg : Config) (verifier : Verifier)
    (avail : CacheAvail) (cache : CacheState) (now : Nat) (req : Request)
    (hsec : truthy cfg.turnstileSecretKey = true)
    (hurl : truthy cfg.redisUrl = true)
    (hnone : req.xTurnstileToken = none) :
    handler cfg verifier avail cache now req =
      ⟨.reject 401 "Authentication required"
        "X-Turnstile-Token header is required", cache, []⟩ := by
  simp [handler, hsec, hurl, hnone, truthy_none]

/-- Witness for C4 at a concrete configuration, request and cache. -/
theorem c4_missing_token_rejected_witness :
    handler ⟨some "sk", some "redis"⟩ (fun _ => .fetchError) ⟨true, true⟩
      [] 0 ⟨none, none, none, none⟩ =
      ⟨.reject 401 "Authentication required"
        "X-Turnstile-Token header is required", [], []⟩ :=
  c4_missing_token_rejected _ _ _ _ _ _ (by decide) (by decide) rfl

/-- C10: with configuration present, a request whose `x-turnstile-token`
header is present but equal to the empty string is rejected exactly like
a missing header: 401 with the missing-token body, cache unchanged, no
Verifier call. -/
theorem c10_empty_token_rejected (cfg : Config) (verifier : Verifier)
    (avail : CacheAvail) (cache : CacheState) (now : Nat) (req : Request)
    (hsec : truthy cfg.turnstileSecretKey = true)
    (hurl : truthy cfg.redisUrl = true)
    (hempty : req.xTurnstileToken = some "") :
    handler cfg verifier avail cache now req =
      ⟨.reject 401 "Authentication required"
        "X-Turnstile-Token header is required", cache, []⟩ := by
  simp [handler, hsec, hurl, hempty, truthy_some]

/-- Witness for C10 at a concrete configuration, request and cache. -/
theorem c10_empty_token_rejected_witness :
    handler ⟨some "sk", some "redis"⟩ (fun _ => .fetchError) ⟨true, true⟩
      [] 0 ⟨some "", none, none, none⟩ =
      ⟨.reject 401 "Authentication required"
        "X-Turnstile-Token header is required", [], []⟩ :=
  c10_empty_token_rejected _ _ _ _ _ _ (by decide) (by decide) rfl

/-- C7: when the verification secret or the cache connection URL is
absent from configuration, every request passes through unconditionally
— including requests with no token header — with the cache unchanged and
no Verifier call. -/
theorem c7_config_absent_pass_through (cfg : Config) (verifier : Verifier)
    (avail : CacheAvail) (cache : CacheState) (now : Nat) (req : Request)
    (h : cfg.turnstileSecretKey = none ∨ cfg.redisUrl = none) :
    handler cfg verifier avail cache now req = ⟨.allow, cache, []⟩ := by
  rcases h with h | h <;> simp [handler, h, truthy_none]

/-- Witness for C7: secret absent, request with no token header. -/
theorem c7_config_absent_pass_through_witness :
    handler ⟨none, some "redis"⟩ (fun _ => .fetchError) ⟨true, true⟩
      [] 0 ⟨none, none, none, none⟩ = ⟨.allow, [], []⟩ :=
  c7_config_absent_pass_through _ _ _ _ _ _ (Or.inl rfl)

/-- C2: with configuration present, a request carrying a token that has
an unexpired `"valid"` cache entry (and a reachable cache) is allowed
with no Verifier call and the cache unchanged. -/
theorem c2_cache_hit_allows_without_verifier (cfg : Config)
    (verifier : Verifier) (avail : CacheAvail) (cache : CacheState)
    (now : Nat) (req : Request) (tok : String)
    (hsec : truthy cfg.turnstileSecretKey = true)
    (hurl : truthy cfg.redisUrl = true)
    (htok : req.xTurnstileToken = some tok) (hne : tok ≠ "")
    (hget : avail.getOk = true)
    (hhit : cacheGet cache now ("turnstile:" ++ tok) = some "valid") :
    handler cfg verifier avail cache now req = ⟨.allow, cache, []⟩ := by
  have hb : (tok == "") = false := beq_eq_false_iff_ne.mpr hne
  simp [handler, hsec, hurl, htok, truthy_some, hb, isTokenValid, hget, hhit]

/-- Witness for C2: a concrete cache holding an unexpired entry for the
token. -/
theorem c2_cache_hit_allows_without_verifier_witness :
    handler ⟨some "sk", some "redis"⟩ (fun _ => .fetchError) ⟨true, true⟩
      [⟨"turnstile:t", "valid", 600⟩] 10 ⟨some "t", none, none, none⟩ =
      ⟨.allow, [⟨"turnstile:t", "valid", 600⟩], []⟩ :=
  c2_cache_hit_allows_without_verifier _ _ _ _ _ _ "t"
    (by decide) (by decide) rfl (by decide) (by decide) (by decide)

/-- C3: with configuration present, a request carrying a token with no
`"valid"` cache entry is rejected with status 401 and body
`{"error": "Invalid token", "message": "Turnstile token validation
failed"}` when the Verifier call fails (fetch error, JSON-parse error,
or a `success` field other than boolean `true`), and the cache is left
unchanged. -/
theorem c3_verifier_failure_rejects_without_write (cfg : Config)
    (verifier : Verifier) (avail : CacheAvail) (cache : CacheState)
    (now : Nat) (req : Request) (tok : String)
    (hsec : truthy cfg.turnstileSecretKey = true)
    (hurl : truthy cfg.redisUrl = true)
    (htok : req.xTurnstileToken = some tok) (hne : tok ≠ "")
    (hmiss : cacheGet cache now ("turnstile:" ++ tok) ≠ some "valid")
    (hfail : ∀ st, verifier (verifierParams cfg.turnstileSecretKey tok
      (resolvedIP req)) ≠ FetchOutcome.parsed st SuccessField.boolTrue) :
    handler cfg verifier avail cache now req =
      ⟨.reject 401 "Invalid token" "Turnstile token validation failed",
        cache,
        [verifierParams cfg.turnstileSecretKey tok (resolvedIP req)]⟩ := by
  have hb : (tok == "") = false := beq_eq_false_iff_ne.mpr hne
  have hv := isTokenValid_eq_false avail cache now tok hmiss
  have hval := validate_of_failure cfg.turnstileSecretKey verifier tok
    (resolvedIP req) hsec hfail
  simp [handler, hsec, hurl, htok, truthy_some, hb, hv, hval]

/-- Witness for C3: an unreachable Verifier (fetch rejects) on an
empty cache. -/
theorem c3_verifier_failure_rejects_without_write_witness :
    handler ⟨some "sk", some "r"⟩ (fun _ => FetchOutcome.fetchError)
      ⟨true, true⟩ [] 0 ⟨some "t", none, none, none⟩ =
      ⟨.reject 401 "Invalid token" "Turnstile token validation failed",
        [], [⟨"sk", "t", none⟩]⟩ :=
  c3_verifier_failure_rejects_without_write _ _ _ _ _ _ "t"
    (by decide) (by decide) rfl (by decide) (by decide)
    (fun st h => FetchOutcome.noConfusion h)

/-- C1: with configuration present and the cache reachable, a request
carrying a token with no `"valid"` cache entry is allowed when the
Verifier reports success, a cache entry with key `"turnstile:" ++ tok`,
value `"valid"` and TTL 600 seconds is written, and any repeat request
with the same token within those 600 seconds is allowed via the cache
alone, with no further Verifier call. -/
theorem c1_verifier_success_caches_and_repeat_hits (cfg : Config)
    (verifier : Verifier) (avail : CacheAvail) (cache : CacheState)
    (now : Nat) (req : Request) (tok : String) (st : Nat)
    (hsec : truthy cfg.turnstileSecretKey = true)
    (hurl : truthy cfg.redisUrl = true)
    (htok : req.xTurnstileToken = some tok) (hne : tok ≠ "")
    (hget : avail.getOk = true) (hset : avail.setOk = true)
    (hmiss : cacheGet cache now ("turnstile:" ++ tok) ≠ some "valid")
    (hok : verifier (verifierParams cfg.turnstileSecretKey tok
      (resolvedIP req)) = FetchOutcome.parsed st SuccessField.boolTrue) :
    handler cfg verifier avail cache now req =
      ⟨.allow, cacheSetEx cache now 600 ("turnstile:" ++ tok) "valid",
        [verifierParams cfg.turnstileSecretKey tok (resolvedIP req)]⟩ ∧
    ∀ now', now' < now + 600 →
      handler cfg verifier avail
        (cacheSetEx cache now 600 ("turnstile:" ++ tok) "valid") now' req =
        ⟨.allow, cacheSetEx cache now 600 ("turnstile:" ++ tok) "valid",
          []⟩ := by
  have hb : (tok == "") = false := beq_eq_false_iff_ne.mpr hne
  have hv := isTokenValid_eq_false avail cache now tok hmiss
  have hval := validate_of_success cfg.turnstileSecretKey verifier tok
    (resolvedIP req) st hsec hok
  constructor
  · simp [handler, hsec, hurl, htok, truthy_some, hb, hv, hval,
      storeValidToken, hset, ttl_seconds]
  · intro now' hlt
    exact handler_cache_hit cfg verifier avail _ now' req tok hsec hurl
      htok hb hget
      (cacheGet_setEx_same cache now 600 now' ("turnstile:" ++ tok)
        "valid" hlt)

/-- Witness for C1: a fresh token verified successfully at time 0, then
repeated at time 5. -/
theorem c1_verifier_success_caches_and_repeat_hits_witness :
    (handler ⟨some "sk", some "r"⟩
        (fun _ => FetchOutcome.parsed 200 SuccessField.boolTrue)
        ⟨true, true⟩ [] 0 ⟨some "t", none, none, none⟩ =
      ⟨.allow, cacheSetEx [] 0 600 ("turnstile:" ++ "t") "valid",
        [⟨"sk", "t", none⟩]⟩) ∧
    (handler ⟨some "sk", some "r"⟩
        (fun _ => FetchOutcome.parsed 200 SuccessField.boolTrue)
        ⟨true, true⟩ (cacheSetEx [] 0 600 ("turnstile:" ++ "t") "valid")
        5 ⟨some "t", none, none, none⟩ =
      ⟨.allow, cacheSetEx [] 0 600 ("turnstile:" ++ "t") "valid", []⟩) :=
  ⟨(c1_verifier_success_caches_and_repeat_hits _ _ _ _ _ _ "t" 200
      (by decide) (by decide) rfl (by decide) rfl rfl (by decide) rfl).1,
   (c1_verifier_success_caches_and_repeat_hits _ _ _ _ _ _ "t" 200
      (by decide) (by decide) rfl (by decide) rfl rfl (by decide) rfl).2
    5 (by decide)⟩

/-- C5: over every execution of the gate, the cache changes only when
the request carried a token, the Verifier reported success for exactly
the request the gate sent for that token, and the change is the single
`"turnstile:" ++ tok` / `"valid"` / 600-second write for that token. -/
theorem c5_cache_write_only_after_success (cfg : Config)
    (verifier : Verifier) (avail : CacheAvail) (cache : CacheState)
    (now : Nat) (req : Request)
    (hchange : (handler cfg verifier avail cache now req).cache ≠ cache) :
    ∃ tok st, req.xTurnstileToken = some tok ∧
      verifier (verifierParams cfg.turnstileSecretKey tok (resolvedIP req)) =
        FetchOutcome.parsed st SuccessField.boolTrue ∧
      (handler cfg verifier avail cache now req).cache =
        cacheSetEx cache now 600 ("turnstile:" ++ tok) "valid" := by
  cases hsec : truthy cfg.turnstileSecretKey with
  | false => simp [handler, hsec] at hchange
  | true =>
  cases hurl : truthy cfg.redisUrl with
  | false => simp [handler, hsec, hurl] at hchange
  | true =>
  cases htok : req.xTurnstileToken with
  | none => simp [handler, hsec, hurl, htok, truthy_none] at hchange
  | some tok =>
  cases hne : tok == "" with
  | true => simp [handler, hsec, hurl, htok, truthy_some, hne] at hchange
  | false =>
  cases hvalid : isTokenValid avail cache now tok with
  | true =>
    simp [handler, hsec, hurl, htok, truthy_some, hne, hvalid] at hchange
  | false =>
  rw [handler_cache_miss_eq cfg verifier avail cache now req tok hsec hurl
    htok hne hvalid] at hchange ⊢
  cases hval : (validateTurnstileToken cfg.turnstileSecretKey verifier tok
      (resolvedIP req)).1 with
  | false => simp [hval] at hchange
  | true =>
  obtain ⟨st, hv⟩ := (validate_fst_eq_true_iff cfg.turnstileSecretKey
    verifier tok (resolvedIP req) hsec).mp hval
  cases hset : avail.setOk with
  | false => simp [hval, storeValidToken, hset] at hchange
  | true =>
    exact ⟨tok, st, rfl, hv,
      by simp [hval, storeValidToken, hset, ttl_seconds]⟩

/-- Witness for C5: a concrete run in which the cache does change. -/
theorem c5_cache_write_only_after_success_witness :
    ∃ tok st,
      (⟨some "t", none, none, none⟩ : Request).xTurnstileToken = some tok ∧
      ((fun _ => FetchOutcome.parsed 200 SuccessField.boolTrue) : Verifier)
        (verifierParams (some "sk") tok
          (resolvedIP ⟨some "t", none, none, none⟩)) =
        FetchOutcome.parsed st SuccessField.boolTrue ∧
      (handler ⟨some "sk", some "r"⟩
        (fun _ => FetchOutcome.parsed 200 SuccessField.boolTrue)
        ⟨true, true⟩ [] 0 ⟨some "t", none, none, none⟩).cache =
        cacheSetEx [] 0 600 ("turnstile:" ++ tok) "valid" :=
  c5_cache_write_only_after_success ⟨some "sk", some "r"⟩
    (fun _ => FetchOutcome.parsed 200 SuccessField.boolTrue)
    ⟨true, true⟩ [] 0 ⟨some "t", none, none, none⟩ (by decide)

/-- C8: with the cache unreachable, a token the Verifier reports valid
still allows the current request with no cache write, an identical later
request calls the Verifier again, and for every input whatsoever the
client-visible outcome is allow, 401 missing-token, or 401
invalid-token. -/
theorem c8_cache_unreachable_fail_open (cfg : Config) (verifier : Verifier)
    (cache : CacheState) (now now' : Nat) (req : Request) (tok : String)
    (st : Nat)
    (hsec : truthy cfg.turnstileSecretKey = true)
    (hurl : truthy cfg.redisUrl = true)
    (htok : req.xTurnstileToken = some tok) (hne : tok ≠ "")
    (hok : verifier (verifierParams cfg.turnstileSecretKey tok
      (resolvedIP req)) = FetchOutcome.parsed st SuccessField.boolTrue) :
    handler cfg verifier ⟨false, false⟩ cache now req =
      ⟨.allow, cache,
        [verifierParams cfg.turnstileSecretKey tok (resolvedIP req)]⟩ ∧
    handler cfg verifier ⟨false, false⟩ cache now' req =
      ⟨.allow, cache,
        [verifierParams cfg.turnstileSecretKey tok (resolvedIP req)]⟩ ∧
    ∀ (cfg' : Config) (verifier' : Verifier) (avail : CacheAvail)
      (cache' : CacheState) (n : Nat) (r : Request),
      (handler cfg' verifier' avail cache' n r).outcome = Outcome.allow ∨
      (handler cfg' verifier' avail cache' n r).outcome =
        Outcome.reject 401 "Authentication required"
          "X-Turnstile-Token header is required" ∨
      (handler cfg' verifier' avail cache' n r).outcome =
        Outcome.reject 401 "Invalid token"
          "Turnstile token validation failed" := by
  have hb : (tok == "") = false := beq_eq_false_iff_ne.mpr hne
  have hval := validate_of_success cfg.turnstileSecretKey verifier tok
    (resolvedIP req) st hsec hok
  refine ⟨?_, ?_,
    fun cfg' verifier' avail cache' n r =>
      handler_outcomes cfg' verifier' avail cache' n r⟩
  · simp [handler, hsec, hurl, htok, truthy_some, hb, isTokenValid, hval,
      storeValidToken]
  · simp [handler, hsec, hurl, htok, truthy_some, hb, isTokenValid, hval,
      storeValidToken]

/-- Witness for C8: cache down at times 0 and 7 with a Verifier that
accepts the token. -/
theorem c8_cache_unreachable_fail_open_witness :
    handler ⟨some "sk", some "r"⟩
      (fun _ => FetchOutcome.parsed 200 SuccessField.boolTrue)
      ⟨false, false⟩ [] 0 ⟨some "t", none, none, none⟩ =
      ⟨.allow, [], [⟨"sk", "t", none⟩]⟩ ∧
    handler ⟨some "sk", some "r"⟩
      (fun _ => FetchOutcome.parsed 200 SuccessField.boolTrue)
      ⟨false, false⟩ [] 7 ⟨some "t", none, none, none⟩ =
      ⟨.allow, [], [⟨"sk", "t", none⟩]⟩ :=
  ⟨(c8_cache_unreachable_fail_open _ _ _ 0 7 _ "t" 200 (by decide)
      (by decide) rfl (by decide) rfl).1,
   (c8_cache_unreachable_fail_open _ _ _ 0 7 _ "t" 200 (by decide)
      (by decide) rfl (by decide) rfl).2.1⟩

/-- C9: on a cache miss the gate makes exactly one Verifier call, whose
`remoteip` is resolved from the platform request IP, then
`cf-connecting-ip`, then `x-forwarded-for`, first truthy value first —
in particular the platform IP wins whenever it is non-empty — and is
omitted when none of the three resolves. -/
theorem c9_ip_resolution_priority (cfg : Config) (verifier : Verifier)
    (avail : CacheAvail) (cache : CacheState) (now : Nat) (req : Request)
    (tok : String)
    (hsec : truthy cfg.turnstileSecretKey = true)
    (hurl : truthy cfg.redisUrl = true)
    (htok : req.xTurnstileToken = some tok) (hne : tok ≠ "")
    (hmiss : cacheGet cache now ("turnstile:" ++ tok) ≠ some "valid") :
    (handler cfg verifier avail cache now req).verifierCalls =
      [verifierParams cfg.turnstileSecretKey tok (resolvedIP req)] ∧
    (truthy req.requestIP = true →
      (verifierParams cfg.turnstileSecretKey tok (resolvedIP req)).remoteip =
        req.requestIP) ∧
    (truthy req.requestIP = false → truthy req.cfConnectingIP = true →
      (verifierParams cfg.turnstileSecretKey tok (resolvedIP req)).remoteip =
        req.cfConnectingIP) ∧
    (truthy req.requestIP = false → truthy req.cfConnectingIP = false →
      truthy req.xForwardedFor = true →
      (verifierParams cfg.turnstileSecretKey tok (resolvedIP req)).remoteip =
        req.xForwardedFor) ∧
    (truthy req.requestIP = false → truthy req.cfConnectingIP = false →
      truthy req.xForwardedFor = false →
      (verifierParams cfg.turnstileSecretKey tok (resolvedIP req)).remoteip =
        none) := by
  have hb : (tok == "") = false := beq_eq_false_iff_ne.mpr hne
  have hv := isTokenValid_eq_false avail cache now tok hmiss
  refine ⟨?_, ?_, ?_, ?_, ?_⟩
  · rw [handler_cache_miss_eq cfg verifier avail cache now req tok hsec
      hurl htok hb hv]
    cases hval : (validateTurnstileToken cfg.turnstileSecretKey verifier
        tok (resolvedIP req)).1 <;>
      simp [hval, validate_calls cfg.turnstileSecretKey verifier tok
        (resolvedIP req) hsec]
  · intro h1
    simp [verifierParams, resolvedIP, jsOr, h1]
  · intro h1 h2
    simp [verifierParams, resolvedIP, jsOr, h1, h2]
  · intro h1 h2 h3
    simp [verifierParams, resolvedIP, jsOr, h1, h2, h3]
  · intro h1 h2 h3
    simp [verifierParams, resolvedIP, jsOr, h1, h2, h3]

/-- Witness for C9: all three IP sources present; the platform IP is the
one sent. -/
theorem c9_ip_resolution_priority_witness :
    (verifierParams (some "sk") "t"
      (resolvedIP ⟨some "t", some "1.1.1.1", some "2.2.2.2",
        some "3.3.3.3"⟩)).remoteip = some "1.1.1.1" :=
  (c9_ip_resolution_priority ⟨some "sk", some "r"⟩
    (fun _ => FetchOutcome.fetchError) ⟨true, true⟩ [] 0
    ⟨some "t", some "1.1.1.1", some "2.2.2.2", some "3.3.3.3"⟩ "t"
    (by decide) (by decide) rfl (by decide) (by decide)).2.1 (by decide)

/-- C6 counterexample: a Verifier response with HTTP status 500 whose
body is `{"success": true}` is treated as success by
`validateTurnstileToken` — the HTTP status is never consulted — refuting
the claim that a non-2xx response is treated as failure. -/
theorem c6_status_ignored_counterexample :
    (validateTurnstileToken (some "sk")
      (fun _ => FetchOutcome.parsed 500 SuccessField.boolTrue)
      "tok" none).1 = true ∧
    ¬ (200 ≤ (500 : Nat) ∧ (500 : Nat) < 300) := by
  exact ⟨by decide, by decide⟩

/-- C6 (amended): with the secret key set, the verification is treated
as success exactly when the Verifier call returns a body that parses to
a JSON object whose `success` field is the boolean `true`, regardless of
the HTTP status; fetch errors, JSON-parse errors, and every other shape
of the `success` field are treated as failure. -/
theorem c6_amended_success_iff_body_true (secretKey : Option String)
    (verifier : Verifier) (token : String) (ip : Option String)
    (hsec : truthy secretKey = true) :
    (validateTurnstileToken secretKey verifier token ip).1 = true ↔
      ∃ st, verifier (verifierParams secretKey token ip) =
        FetchOutcome.parsed st SuccessField.boolTrue :=
  validate_fst_eq_true_iff secretKey verifier token ip hsec

/-- Witness for the amended C6 at a concrete non-2xx success response. -/
theorem c6_amended_success_iff_body_true_witness :
    ((validateTurnstileToken (some "sk")
        (fun _ => FetchOutcome.parsed 500 SuccessField.boolTrue)
        "tok" none).1 = true ↔
      ∃ st, ((fun _ => FetchOutcome.parsed 500 SuccessField.boolTrue) :
          Verifier) (verifierParams (some "sk") "tok" none) =
        FetchOutcome.parsed st SuccessField.boolTrue) :=
  c6_amended_success_iff_body_true (some "sk")
    (fun _ => FetchOutcome.parsed 500 SuccessField.boolTrue) "tok" none
    (by decide)

end Turnstile
